import Mathlib

/-!
Shallow embedding of `StreakCalculator.calculate_streaks` from `src/main.py`
of the github-Streaks repository.

Modelling choices:
* Calendar dates are day numbers (`Nat`): consecutive calendar days map to
  consecutive numbers, and `datetime` subtraction `(a - b).days` becomes
  integer subtraction of the day numbers.
* Python `int` counts and streak counters are `Int`.
* The Python input is a list of dicts with keys `date` and
  `contributions_count`; it becomes the structure `Day`.
* `datetime.now()` yields a `Datetime`, a date plus a time-of-day component;
  `now.date()` projects out the date.  The function reads the clock
  internally (lines 54-55 of `main.py`), so the clock reading is an explicit
  parameter of the embedding, standing for the ambient clock value at call
  time.
* Python `list.sort(key=...)` is a stable sort; a stable sort by a key is
  uniquely determined by its input, and `List.insertionSort` is stable, so
  sorting by date is embedded as `List.insertionSort` on the date order.
* `list.sort` mutates the caller's list in place.  The plain embedding
  `calculate_streaks` returns only the result; `calculate_streaks_mut`
  additionally returns the final state of the caller's list.
-/

/-- One contribution day, the dict built in `get_github_streak`:
`date` a calendar date (day number), `contributions_count` a Python int. -/
structure Day where
  date : Nat
  contributions_count : Int
  deriving DecidableEq, Repr

/-- The dict returned by `calculate_streaks`. -/
structure StreakResult where
  max_streak : Int
  ongoing_streak : Int
  total_contributions : Int
  last_contribution_date : Option Nat
  deriving DecidableEq, Repr

/-- A `datetime.now()` reading: a calendar date plus a time-of-day component.
`calculate_streaks` uses only `now.date()`, i.e. the `date` field. -/
structure Datetime where
  date : Nat
  time : Nat
  deriving DecidableEq, Repr

/-- The loop state of the walk in `calculate_streaks`: the five local
variables initialised on lines 48-52 of `main.py`. -/
structure WalkState where
  max_streak : Int
  current_streak : Int
  previous_day : Option Nat
  total_contributions : Int
  last_contribution_date : Option Nat
  deriving DecidableEq, Repr

/-- Initial loop state: `max_streak = 0`, `current_streak = 0`,
`previous_day = None`, `total_contributions = 0`,
`last_contribution_date = None`. -/
def initState : WalkState :=
  { max_streak := 0, current_streak := 0, previous_day := none,
    total_contributions := 0, last_contribution_date := none }

/-- One iteration of the `for day in contributions` loop
(lines 57-79 of `main.py`). -/
def stepDay (today : Nat) (st : WalkState) (day : Day) : WalkState :=
  let date := day.date
  let count := day.contributions_count
  let total_contributions := st.total_contributions + count
  let last_contribution_date :=
    if 0 < count then some date else st.last_contribution_date
  let current_streak :=
    match st.previous_day with
    | some previous_day =>
      let day_diff : Int := (date : Int) - (previous_day : Int)
      if day_diff = 1 ∧ 0 < count then st.current_streak + 1
      else if 0 < count then 1
      else if date ≠ today then 0
      else st.current_streak
    | none => if 0 < count then 1 else st.current_streak
  let max_streak :=
    if st.max_streak < current_streak then current_streak else st.max_streak
  { max_streak := max_streak, current_streak := current_streak,
    previous_day := some date, total_contributions := total_contributions,
    last_contribution_date := last_contribution_date }

/-- The date order used by `contributions.sort(key=lambda x: x["date"])`. -/
def dateLe (a b : Day) : Prop := a.date ≤ b.date

instance : DecidableRel dateLe := fun a b => Nat.decLe a.date b.date

/-- Strict version of `dateLe`, used to compare sorted lists. -/
def dateLt (a b : Day) : Prop := a.date < b.date

instance : IsTotal Day dateLe := ⟨fun a b => Nat.le_total a.date b.date⟩

instance : IsTrans Day dateLe := ⟨fun _ _ _ h1 h2 => Nat.le_trans h1 h2⟩

instance : IsAntisymm Day dateLt :=
  ⟨fun a _ h1 h2 => absurd (Nat.lt_trans h1 h2) (Nat.lt_irrefl a.date)⟩

/-- `contributions.sort(key=lambda x: x["date"])`: a stable sort by date. -/
def sortByDate (l : List Day) : List Day := List.insertionSort dateLe l

/-- The walk of `calculate_streaks` over the sorted contributions, starting
from the initial loop state. -/
def walkState (contributions : List Day) (today : Nat) : WalkState :=
  (sortByDate contributions).foldl (stepDay today) initState

/-- Body of `calculate_streaks` with the clock reading already projected to a
date (the local variable `today` of line 55 of `main.py`): early return on
empty input, sort, walk, then the final lapse check
`if last_contribution_date != today: ongoing_streak = 0`. -/
def calculate_streaks_on (contributions : List Day) (today : Nat) :
    StreakResult :=
  if contributions.isEmpty then
    { max_streak := 0, ongoing_streak := 0, total_contributions := 0,
      last_contribution_date := none }
  else
    let st := walkState contributions today
    let ongoing_streak :=
      if st.last_contribution_date ≠ some today then 0 else st.current_streak
    { max_streak := st.max_streak, ongoing_streak := ongoing_streak,
      total_contributions := st.total_contributions,
      last_contribution_date := st.last_contribution_date }

/-- `StreakCalculator.calculate_streaks`: `now = datetime.now()` is the
ambient clock reading at call time, `today = now.date()`. -/
def calculate_streaks (contributions : List Day) (now : Datetime) :
    StreakResult :=
  calculate_streaks_on contributions now.date

/-- `calculate_streaks` together with its in-place effect on the caller's
list: the second component is the state of the argument list after the call
(`contributions.sort` on line 46 mutates it; on the empty early return the
sort is never reached). -/
def calculate_streaks_mut (contributions : List Day) (now : Datetime) :
    StreakResult × List Day :=
  if contributions.isEmpty then
    ({ max_streak := 0, ongoing_streak := 0, total_contributions := 0,
       last_contribution_date := none }, contributions)
  else
    let st := walkState contributions now.date
    let ongoing_streak :=
      if st.last_contribution_date ≠ some now.date then 0
      else st.current_streak
    ({ max_streak := st.max_streak, ongoing_streak := ongoing_streak,
       total_contributions := st.total_contributions,
       last_contribution_date := st.last_contribution_date },
     sortByDate contributions)

/-- The most recent date with a positive count, recomputed directly from a
list (in walk order): the value the loop leaves in `last_contribution_date`. -/
def lastPositiveDate (l : List Day) : Option Nat :=
  l.foldl
    (fun acc d => if 0 < d.contributions_count then some d.date else acc) none

/-! Helper lemmas about the walk. -/

/-- The `last_contribution_date` component of the walk is the simple
"last positive date" fold over the same list. -/
theorem foldl_stepDay_last (today : Nat) :
    ∀ (l : List Day) (st : WalkState),
      (l.foldl (stepDay today) st).last_contribution_date =
        l.foldl
          (fun acc d =>
            if 0 < d.contributions_count then some d.date else acc)
          st.last_contribution_date
  | [], _ => rfl
  | d :: l, st => by
    rw [List.foldl_cons, List.foldl_cons, foldl_stepDay_last today l]
    rfl

/-- The `total_contributions` component of the walk accumulates the sum of
the counts. -/
theorem foldl_stepDay_total (today : Nat) :
    ∀ (l : List Day) (st : WalkState),
      (l.foldl (stepDay today) st).total_contributions =
        st.total_contributions + (l.map Day.contributions_count).sum
  | [], st => by simp
  | d :: l, st => by
    rw [List.foldl_cons, foldl_stepDay_total today l]
    show (st.total_contributions + d.contributions_count) + _ = _
    rw [List.map_cons, List.sum_cons, add_assoc]

/-- One step preserves `0 ≤ current_streak ≤ max_streak`. -/
theorem stepDay_inv (t : Nat) (st : WalkState) (d : Day)
    (h0 : 0 ≤ st.current_streak) (h1 : st.current_streak ≤ st.max_streak) :
    0 ≤ (stepDay t st d).current_streak ∧
      (stepDay t st d).current_streak ≤ (stepDay t st d).max_streak := by
  cases hp : st.previous_day with
  | none =>
    simp only [stepDay, hp]
    split_ifs <;> constructor <;> omega
  | some p =>
    simp only [stepDay, hp]
    split_ifs <;> constructor <;> omega

/-- The walk preserves `0 ≤ current_streak ≤ max_streak`. -/
theorem foldl_stepDay_inv (t : Nat) :
    ∀ (l : List Day) (st : WalkState),
      0 ≤ st.current_streak → st.current_streak ≤ st.max_streak →
      0 ≤ (l.foldl (stepDay t) st).current_streak ∧
        (l.foldl (stepDay t) st).current_streak ≤
          (l.foldl (stepDay t) st).max_streak
  | [], st, h0, h1 => ⟨h0, h1⟩
  | d :: l, st, h0, h1 => by
    rw [List.foldl_cons]
    have h := stepDay_inv t st d h0 h1
    exact foldl_stepDay_inv t l (stepDay t st d) h.1 h.2

/-- A fold of the "last positive date" update leaves the accumulator alone
or returns the date of some list element. -/
theorem lastPositive_cases :
    ∀ (l : List Day) (a : Option Nat),
      l.foldl
          (fun acc d =>
            if 0 < d.contributions_count then some d.date else acc) a = a ∨
        ∃ d ∈ l,
          l.foldl
            (fun acc d =>
              if 0 < d.contributions_count then some d.date else acc) a =
            some d.date
  | [], a => Or.inl rfl
  | d :: l, a => by
    rw [List.foldl_cons]
    rcases lastPositive_cases l
        (if 0 < d.contributions_count then some d.date else a) with h | ⟨e, he, h⟩
    · by_cases hd : 0 < d.contributions_count
      · exact Or.inr ⟨d, List.mem_cons_self d l, by rw [h, if_pos hd]⟩
      · exact Or.inl (by rw [h, if_neg hd])
    · exact Or.inr ⟨e, List.mem_cons_of_mem d he, h⟩

/-- The total reported by the streak computation is the sum of the input
counts (in input order). -/
theorem total_eq_sum (c : List Day) (t : Nat) :
    (calculate_streaks_on c t).total_contributions =
      (c.map Day.contributions_count).sum := by
  unfold calculate_streaks_on
  split
  · next h =>
    rw [List.isEmpty_iff.mp h]
    rfl
  · show (walkState c t).total_contributions = _
    unfold walkState
    rw [foldl_stepDay_total]
    show 0 + _ = _
    rw [zero_add]
    exact
      (List.Perm.map Day.contributions_count
        (List.perm_insertionSort dateLe c)).sum_eq

/-- A list sorted by date with pairwise-distinct dates is strictly sorted. -/
theorem sorted_dateLt_of_nodup {l : List Day} (hs : List.Sorted dateLe l)
    (hnd : (l.map Day.date).Nodup) : List.Sorted dateLt l := by
  have hne : l.Pairwise fun a b => a.date ≠ b.date := List.pairwise_map.mp hnd
  exact (hs.and hne).imp fun h => Nat.lt_of_le_of_ne h.1 h.2

/-- Two permutations of a duplicate-date-free day list sort to the same
list. -/
theorem sortByDate_eq_of_perm {c₁ c₂ : List Day} (hp : c₁.Perm c₂)
    (hnd : (c₁.map Day.date).Nodup) : sortByDate c₁ = sortByDate c₂ := by
  have hperm : (sortByDate c₁).Perm (sortByDate c₂) :=
    ((List.perm_insertionSort dateLe c₁).trans hp).trans
      (List.perm_insertionSort dateLe c₂).symm
  have hnd₁ : ((sortByDate c₁).map Day.date).Nodup :=
    (List.Perm.map Day.date (List.perm_insertionSort dateLe c₁)).nodup_iff.mpr
      hnd
  have hnd₂ : ((sortByDate c₂).map Day.date).Nodup :=
    (List.Perm.map Day.date hperm).nodup_iff.mp hnd₁
  exact List.eq_of_perm_of_sorted hperm
    (sorted_dateLt_of_nodup (List.sorted_insertionSort dateLe c₁) hnd₁)
    (sorted_dateLt_of_nodup (List.sorted_insertionSort dateLe c₂) hnd₂)

/-- The walk started from the initial state keeps
`0 ≤ current_streak ≤ max_streak`. -/
theorem walk_inv (c : List Day) (t : Nat) :
    0 ≤ (walkState c t).current_streak ∧
      (walkState c t).current_streak ≤ (walkState c t).max_streak :=
  foldl_stepDay_inv t (sortByDate c) initState (le_refl 0) (le_refl 0)

/-- Field bounds of the computed result: the maximal and ongoing streaks are
non-negative and the ongoing streak never exceeds the maximal one. -/
theorem calc_on_field_bounds (c : List Day) (t : Nat) :
    0 ≤ (calculate_streaks_on c t).max_streak ∧
      0 ≤ (calculate_streaks_on c t).ongoing_streak ∧
      (calculate_streaks_on c t).ongoing_streak ≤
        (calculate_streaks_on c t).max_streak := by
  unfold calculate_streaks_on
  split
  · exact ⟨le_refl 0, le_refl 0, le_refl 0⟩
  · have h := walk_inv c t
    show 0 ≤ (walkState c t).max_streak ∧
        0 ≤ (if (walkState c t).last_contribution_date ≠ some t then 0
          else (walkState c t).current_streak) ∧
        (if (walkState c t).last_contribution_date ≠ some t then 0
          else (walkState c t).current_streak) ≤ (walkState c t).max_streak
    refine ⟨le_trans h.1 h.2, ?_, ?_⟩ <;> split_ifs
    · exact le_refl 0
    · exact h.1
    · exact le_trans h.1 h.2
    · exact h.2

/-- The reported last contribution date is absent or the date of some input
day. -/
theorem calc_on_last_mem (c : List Day) (t : Nat) :
    (calculate_streaks_on c t).last_contribution_date = none ∨
      ∃ d ∈ c,
        (calculate_streaks_on c t).last_contribution_date = some d.date := by
  unfold calculate_streaks_on
  split
  · exact Or.inl rfl
  · show (walkState c t).last_contribution_date = none ∨
      ∃ d ∈ c, (walkState c t).last_contribution_date = some d.date
    have hl : (walkState c t).last_contribution_date =
        lastPositiveDate (sortByDate c) :=
      foldl_stepDay_last t (sortByDate c) initState
    rw [hl]
    rcases lastPositive_cases (sortByDate c) none with h | ⟨d, hd, h⟩
    · exact Or.inl h
    · exact Or.inr
        ⟨d, (List.perm_insertionSort dateLe c).mem_iff.mp hd, h⟩

/-! Claim theorems. -/

/-- C5: for every value of today, the streak computation applied to the
empty list of contributions returns exactly the zero result: maximal streak
0, ongoing streak 0, total 0 and no last contribution date. -/
theorem c5_empty_input (today : Nat) :
    calculate_streaks_on [] today =
      { max_streak := 0, ongoing_streak := 0, total_contributions := 0,
        last_contribution_date := none } := rfl

/-- C8: Scenario A.  With the dates 2024-01-01 .. 2024-01-04 numbered
1 .. 4, the input (1,1),(2,1),(3,0),(4,1) with today = 4 yields maximal
streak 2, ongoing streak 1, total 3, last contribution date 4. -/
theorem c8_scenarioA :
    calculate_streaks_on [⟨1, 1⟩, ⟨2, 1⟩, ⟨3, 0⟩, ⟨4, 1⟩] 4 =
      { max_streak := 2, ongoing_streak := 1, total_contributions := 3,
        last_contribution_date := some 4 } := by decide

/-- C6: for every input list and every value of today, the ongoing streak
reported by the computation never exceeds the maximal streak. -/
theorem c6_current_le_longest (c : List Day) (today : Nat) :
    (calculate_streaks_on c today).ongoing_streak ≤
      (calculate_streaks_on c today).max_streak :=
  (calc_on_field_bounds c today).2.2

/-- C9: the computation is total over the documented input domain.  In the
embedding it returns a plain `StreakResult` (no failure monad), reflecting
the absence of raising operations in the function body, and for every input
with non-negative counts the result is well formed: the total equals the sum
of the counts and is non-negative, both streak fields are non-negative, and
the last contribution date is absent or the date of some input day. -/
theorem c9_total_safe (c : List Day) (now : Datetime)
    (h : ∀ d ∈ c, 0 ≤ d.contributions_count) :
    (calculate_streaks c now).total_contributions =
        (c.map Day.contributions_count).sum ∧
      0 ≤ (calculate_streaks c now).total_contributions ∧
      0 ≤ (calculate_streaks c now).max_streak ∧
      0 ≤ (calculate_streaks c now).ongoing_streak ∧
      ((calculate_streaks c now).last_contribution_date = none ∨
        ∃ d ∈ c,
          (calculate_streaks c now).last_contribution_date = some d.date) := by
  have htot : (calculate_streaks c now).total_contributions =
      (c.map Day.contributions_count).sum := total_eq_sum c now.date
  refine ⟨htot, ?_, (calc_on_field_bounds c now.date).1,
    (calc_on_field_bounds c now.date).2.1, calc_on_last_mem c now.date⟩
  rw [htot]
  apply List.sum_nonneg
  intro x hx
  obtain ⟨d, hd, rfl⟩ := List.mem_map.mp hx
  exact h d hd

/-- Witness for C9 at the one-day input (1,2) with clock date 1. -/
theorem c9_total_safe_witness :
    (∀ d ∈ [(⟨1, 2⟩ : Day)], 0 ≤ d.contributions_count) ∧
      ((calculate_streaks [(⟨1, 2⟩ : Day)]
            (Datetime.mk 1 0)).total_contributions =
          ([(⟨1, 2⟩ : Day)].map Day.contributions_count).sum ∧
        0 ≤ (calculate_streaks [(⟨1, 2⟩ : Day)]
            (Datetime.mk 1 0)).total_contributions ∧
        0 ≤ (calculate_streaks [(⟨1, 2⟩ : Day)]
            (Datetime.mk 1 0)).max_streak ∧
        0 ≤ (calculate_streaks [(⟨1, 2⟩ : Day)]
            (Datetime.mk 1 0)).ongoing_streak ∧
        ((calculate_streaks [(⟨1, 2⟩ : Day)]
              (Datetime.mk 1 0)).last_contribution_date = none ∨
          ∃ d ∈ [(⟨1, 2⟩ : Day)],
            (calculate_streaks [(⟨1, 2⟩ : Day)]
                (Datetime.mk 1 0)).last_contribution_date = some d.date)) :=
  ⟨by decide, c9_total_safe [⟨1, 2⟩] (Datetime.mk 1 0) (by decide)⟩

/-- C1 counterexample: three consecutive positive days 1, 2, 3 (2024-01-01
to 2024-01-03) with today = 4 and no entry for today.  The last positive
date 3 is within one day of today and the walk's running streak is 3, yet
the returned ongoing streak is 0, because the final lapse test of the code
compares the last contribution date with today for equality rather than
allowing a one-day difference. -/
theorem c1_lapse_counterexample :
    (4 : Nat) - 3 ≤ 1 ∧
      (walkState [⟨1, 1⟩, ⟨2, 1⟩, ⟨3, 1⟩] 4).current_streak = 3 ∧
      (calculate_streaks_on [⟨1, 1⟩, ⟨2, 1⟩, ⟨3, 1⟩] 4).ongoing_streak = 0 ∧
      (calculate_streaks_on [⟨1, 1⟩, ⟨2, 1⟩, ⟨3, 1⟩] 4).ongoing_streak ≠ 3 :=
  by decide

/-- C1 (amended): after the walk, the ongoing streak equals the final
running streak exactly when the last positive-count date equals today;
otherwise it is 0.  In particular, in the P5 scenario of the spec the code
returns 0, not the run length ending yesterday. -/
theorem c1_lapse_rule (c : List Day) (today : Nat) :
    (calculate_streaks_on c today).ongoing_streak =
      if lastPositiveDate (sortByDate c) = some today
      then (walkState c today).current_streak else 0 := by
  unfold calculate_streaks_on
  split
  · next hemp =>
    rw [List.isEmpty_iff.mp hemp]
    show (0 : Int) = if lastPositiveDate (sortByDate []) = some today
      then (walkState [] today).current_streak else 0
    rw [if_neg (fun hc => Option.noConfusion hc)]
  · show (if (walkState c today).last_contribution_date ≠ some today then 0
        else (walkState c today).current_streak) =
      if lastPositiveDate (sortByDate c) = some today
      then (walkState c today).current_streak else 0
    have hl : (walkState c today).last_contribution_date =
        lastPositiveDate (sortByDate c) :=
      foldl_stepDay_last today (sortByDate c) initState
    rw [hl]
    by_cases h : lastPositiveDate (sortByDate c) = some today
    · rw [if_neg (fun hc => hc h), if_pos h]
    · rw [if_pos h, if_neg h]

/-- C2 counterexample: the same one-day input evaluated under two clock
readings with different dates yields different results, so invocations at
arbitrary wall-clock times are not guaranteed identical: the function reads
the clock internally. -/
theorem c2_clock_counterexample :
    calculate_streaks [⟨1, 1⟩] (Datetime.mk 1 0) ≠
      calculate_streaks [⟨1, 1⟩] (Datetime.mk 5 0) := by decide

/-- C2 (amended): today is not a parameter of the Python function; it is
read from the system clock inside the function as `datetime.now().date()`.
The computation depends on the clock reading only through its date
component: two invocations on the same sequence of days whose clock
readings share the same calendar date return identical results. -/
theorem c2_clock_date_determinism (c : List Day) (n₁ n₂ : Datetime)
    (h : n₁.date = n₂.date) :
    calculate_streaks c n₁ = calculate_streaks c n₂ := by
  unfold calculate_streaks
  rw [h]

/-- Witness for C2: clock readings (date 1, time 0) and (date 1, time 7)
give the same result on the one-day input (1,1). -/
theorem c2_clock_date_determinism_witness :
    (Datetime.mk 1 0).date = (Datetime.mk 1 7).date ∧
      calculate_streaks [⟨1, 1⟩] (Datetime.mk 1 0) =
        calculate_streaks [⟨1, 1⟩] (Datetime.mk 1 7) :=
  ⟨rfl, c2_clock_date_determinism [⟨1, 1⟩] (Datetime.mk 1 0)
    (Datetime.mk 1 7) rfl⟩

/-- C3 counterexample: the call leaves the caller's list sorted, not as it
was passed in: on the unsorted two-day input the list after the call
differs from the input list. -/
theorem c3_mutation_counterexample :
    (calculate_streaks_mut [⟨2, 1⟩, ⟨1, 1⟩] (Datetime.mk 2 0)).2 ≠
      [⟨2, 1⟩, ⟨1, 1⟩] := by decide

/-- C3 (amended): the computation performs no I/O and its return value is a
function of its inputs, but it does mutate the caller's list: after the
call the list is the chronological stable sort of the input, a permutation
of the days passed in. -/
theorem c3_effect (c : List Day) (now : Datetime) :
    ((calculate_streaks_mut c now).2).Perm c ∧
      (calculate_streaks_mut c now).1 = calculate_streaks c now := by
  unfold calculate_streaks_mut calculate_streaks calculate_streaks_on
  by_cases h : c.isEmpty = true
  · rw [if_pos h, if_pos h]
    exact ⟨List.Perm.refl c, rfl⟩
  · rw [if_neg h, if_neg h]
    exact ⟨List.perm_insertionSort dateLe c, rfl⟩

/-- C4: during the walk, a zero-count day that has a predecessor resets the
running streak to 0 exactly when its date differs from today; if its date
equals today the running streak is left unchanged. -/
theorem c4_zero_count_grace (today : Nat) (st : WalkState) (d : Day)
    (p : Nat) (hp : st.previous_day = some p)
    (h0 : d.contributions_count = 0) :
    (stepDay today st d).current_streak =
      if d.date = today then st.current_streak else 0 := by
  simp only [stepDay, hp, h0]
  norm_num

/-- Witness for C4 at today = 5, state (2, 2, some 4, 3, some 4) and the
zero-count day (5, 0), whose date equals today. -/
theorem c4_zero_count_grace_witness :
    (WalkState.mk 2 2 (some 4) 3 (some 4)).previous_day = some 4 ∧
      (Day.mk 5 0).contributions_count = 0 ∧
      (stepDay 5 (WalkState.mk 2 2 (some 4) 3 (some 4))
          (Day.mk 5 0)).current_streak =
        if (Day.mk 5 0).date = 5
        then (WalkState.mk 2 2 (some 4) 3 (some 4)).current_streak else 0 :=
  ⟨rfl, rfl,
    c4_zero_count_grace 5 (WalkState.mk 2 2 (some 4) 3 (some 4))
      (Day.mk 5 0) 4 rfl rfl⟩

/-- C7 counterexample: two permutations of the same day multiset with a
duplicated date give different results (maximal streak 2 versus 1), because
the stable sort preserves the relative order of equal dates. -/
theorem c7_perm_counterexample :
    List.Perm [(⟨1, 1⟩ : Day), ⟨2, 1⟩, ⟨2, 0⟩] [⟨1, 1⟩, ⟨2, 0⟩, ⟨2, 1⟩] ∧
      calculate_streaks_on [(⟨1, 1⟩ : Day), ⟨2, 1⟩, ⟨2, 0⟩] 99 ≠
        calculate_streaks_on [⟨1, 1⟩, ⟨2, 0⟩, ⟨2, 1⟩] 99 := by decide

/-- C7 (amended): for any permutation of the input the total is identical,
and when no date occurs twice in the input the whole result is identical
across permutations. -/
theorem c7_perm_independence (c₁ c₂ : List Day) (today : Nat)
    (hp : c₁.Perm c₂) :
    (calculate_streaks_on c₁ today).total_contributions =
        (calculate_streaks_on c₂ today).total_contributions ∧
      ((c₁.map Day.date).Nodup →
        calculate_streaks_on c₁ today = calculate_streaks_on c₂ today) := by
  constructor
  · rw [total_eq_sum, total_eq_sum]
    exact (hp.map Day.contributions_count).sum_eq
  · intro hnd
    have hs : sortByDate c₁ = sortByDate c₂ := sortByDate_eq_of_perm hp hnd
    have he : c₁.isEmpty = c₂.isEmpty := by
      have := hp.length_eq
      cases c₁ <;> cases c₂ <;> simp_all
    unfold calculate_streaks_on walkState
    rw [he, hs]

/-- Witness for C7 at the duplicate-free unsorted input (2,1),(1,1) against
its sorted permutation with today = 2. -/
theorem c7_perm_independence_witness :
    List.Perm [(⟨2, 1⟩ : Day), ⟨1, 1⟩] [⟨1, 1⟩, ⟨2, 1⟩] ∧
      ((calculate_streaks_on [(⟨2, 1⟩ : Day), ⟨1, 1⟩] 2).total_contributions =
          (calculate_streaks_on [⟨1, 1⟩, ⟨2, 1⟩] 2).total_contributions ∧
        (([(⟨2, 1⟩ : Day), ⟨1, 1⟩].map Day.date).Nodup →
          calculate_streaks_on [(⟨2, 1⟩ : Day), ⟨1, 1⟩] 2 =
            calculate_streaks_on [⟨1, 1⟩, ⟨2, 1⟩] 2)) :=
  ⟨by decide,
    c7_perm_independence [⟨2, 1⟩, ⟨1, 1⟩] [⟨1, 1⟩, ⟨2, 1⟩] 2 (by decide)⟩

/-- C10: a duplicated date never extends a streak.  When the previous day
of the state equals the date of the current entry (day difference 0) and
the entry's count is positive, the step sets the running streak to 1 rather
than incrementing it, while the entry's count is still added to the
total. -/
theorem c10_duplicate_date (today : Nat) (st : WalkState) (d : Day)
    (hp : st.previous_day = some d.date)
    (hpos : 0 < d.contributions_count) :
    (stepDay today st d).current_streak = 1 ∧
      (stepDay today st d).total_contributions =
        st.total_contributions + d.contributions_count := by
  refine ⟨?_, rfl⟩
  simp only [stepDay, hp]
  have h1 : ¬(((d.date : Int) - (d.date : Int) = 1) ∧
      0 < d.contributions_count) := by
    rintro ⟨he, _⟩
    rw [sub_self] at he
    exact absurd he (by norm_num)
  rw [if_neg h1, if_pos hpos]

/-- Witness for C10 at today = 9, state (1, 1, some 3, 5, some 3) and the
duplicated-date entry (3, 2). -/
theorem c10_duplicate_date_witness :
    (WalkState.mk 1 1 (some 3) 5 (some 3)).previous_day =
        some (Day.mk 3 2).date ∧
      0 < (Day.mk 3 2).contributions_count ∧
      ((stepDay 9 (WalkState.mk 1 1 (some 3) 5 (some 3))
            (Day.mk 3 2)).current_streak = 1 ∧
        (stepDay 9 (WalkState.mk 1 1 (some 3) 5 (some 3))
            (Day.mk 3 2)).total_contributions =
          (WalkState.mk 1 1 (some 3) 5 (some 3)).total_contributions +
            (Day.mk 3 2).contributions_count) :=
  ⟨rfl, by decide,
    c10_duplicate_date 9 (WalkState.mk 1 1 (some 3) 5 (some 3))
      (Day.mk 3 2) rfl (by decide)⟩
